import Mathlib

/-!
Verification of the semantometrics contribution core
(`contribution/contrib_calculator.py` and `contribution/dist_calculator.py`).

Modelling conventions:
* Document indices and texts are `String`s; Python floats are modelled as `ℚ`
  (exact rational arithmetic; the guards and formulas of the source involve
  only comparisons, sums, divisions and products).
* The distance cache `self.calculated_distances` (a dict of dicts
  `{idx1: {idx2: distance}}`) is modelled as the lookup function
  `Idx → Idx → Option ℚ`.  The check `pair[0] in cache and pair[1] in
  cache[pair[0]]` is exactly "the lookup is `some`"; creation of empty inner
  dicts in `_add_distance` is unobservable through lookups.
* `docs` (`{index: document_text}`) is modelled as `Idx → Option String`;
  `_get_document_text` maps a missing index, `None` or `numpy.nan` to `''`,
  which `Option.getD ""` captures.
* The similarity produced by the scikit-learn vectorizer pipeline
  (`tfidf * tfidf.T` in `document_distance`) is a library call; it is passed
  to `documentDistance` as an explicit function argument `sim`, and it is
  additionally modelled algebraically by `tfidfCosineSim` below.
* Python 3 comparison semantics: comparing `None` with a number raises
  `TypeError`.  `contribution` compares possibly-`None` mean distances with
  numeric bounds (`overline_a <= 0 or ...`, `mean_distance < 0 or ...`), so
  the embedding of `contribution` returns `Except PyErr (Option ℚ)` together
  with the final cache state, with short-circuit evaluation of `or` exactly
  as in the source.
-/

/-- Document indices (string-like opaque identifiers). -/
abbrev Idx := String

/-- The distance cache `self.calculated_distances`, modelled by its lookup
function.  `c a b = some v` means `a in cache and b in cache[a]` with value
`v`; `none` means the pair is absent. -/
abbrev Cache := Idx → Idx → Option ℚ

/-- A fresh, empty cache (constructor default `distances=None`). -/
def emptyCache : Cache := fun _ _ => none

/-- `ContribCalculator._add_distance`: store `d` under both orderings
`cache[idx1][idx2]` and `cache[idx2][idx1]`, leaving all other entries
unchanged (the creation of empty inner dicts is unobservable). -/
def addDistance (idx1 idx2 : Idx) (d : ℚ) (c : Cache) : Cache :=
  fun a b =>
    if (a = idx1 ∧ b = idx2) ∨ (a = idx2 ∧ b = idx1) then some d else c a b

/-- The document-text map `docs`; `none` covers a missing key and the
`None` / `numpy.nan` sentinels. -/
abbrev Docs := Idx → Option String

/-- `ContribCalculator._get_document_text`: missing index or absent text
becomes the empty string. -/
def getDocumentText (docs : Docs) (idx : Idx) : String :=
  (docs idx).getD ""

/-- The type of the engine `DistCalculator.document_distance` as used by the
calculator: two texts in, an optional distance out. -/
abbrev Engine := String → String → Option ℚ

/-- `DistCalculator.document_distance`, generic over the numeric field so the
same definition serves the exact rational model and the real-valued
similarity model.  `sim` is the scikit-learn similarity
`(tfidf * tfidf.T).A[0][1]` computed by `vectorizer.fit_transform`; `none`
models the `ValueError` raised on an empty vocabulary.  The source first
checks `not d1 or not d2` (empty text), then computes
`distance = 1 - similarity` and applies the defensive guard
`if distance < 0 or distance > 1: return None`. -/
def documentDistance {α : Type} [LinearOrderedField α]
    (sim : String → String → Option α) (d1 d2 : String) : Option α :=
  if d1 = "" ∨ d2 = "" then none
  else
    match sim d1 d2 with
    | none => none
    | some s =>
      if 1 - s < 0 ∨ 1 - s > 1 then none else some (1 - s)

/-- The pair enumeration `[[x, y] for x in indices_a for y in indices_b]`. -/
def pairList (as bs : List Idx) : List (Idx × Idx) :=
  match as with
  | [] => []
  | x :: rest => bs.map (fun y => (x, y)) ++ pairList rest bs

/-- One iteration of the loop body of `_pairwise_distances`: skip self-pairs,
otherwise reuse a cached distance, otherwise resolve the texts, call the
engine, and on success append the distance and store it in the cache. -/
def processPair (engine : Engine) (docs : Docs)
    (st : List ℚ × Cache) (p : Idx × Idx) : List ℚ × Cache :=
  if p.1 = p.2 then st
  else
    match st.2 p.1 p.2 with
    | some d => (st.1 ++ [d], st.2)
    | none =>
      match engine (getDocumentText docs p.1) (getDocumentText docs p.2) with
      | some dist => (st.1 ++ [dist], addDistance p.1 p.2 dist st.2)
      | none => st

/-- `ContribCalculator._pairwise_distances`: fold the loop body over the pair
enumeration, starting from the empty result list and the current cache.
Returns the list of distances together with the updated cache. -/
def pairwiseDistances (engine : Engine) (c : Cache) (docs : Docs)
    (as bs : List Idx) : List ℚ × Cache :=
  (pairList as bs).foldl (processPair engine docs) ([], c)

/-- `ContribCalculator._mean_distance`: `None` when no pair yielded a
distance, otherwise `sum(distances) / len(distances)`. -/
def meanDistance (engine : Engine) (c : Cache) (docs : Docs)
    (as bs : List Idx) : Option ℚ × Cache :=
  if (pairwiseDistances engine c docs as bs).1.length = 0 then
    (none, (pairwiseDistances engine c docs as bs).2)
  else
    (some ((pairwiseDistances engine c docs as bs).1.sum /
        ((pairwiseDistances engine c docs as bs).1.length : ℚ)),
      (pairwiseDistances engine c docs as bs).2)

/-- Python 3 runtime errors that the embedded comparisons can raise. -/
inductive PyErr : Type
  | typeError : PyErr
deriving DecidableEq

/-- Python 3 semantics of `o <= x` for an optional float `o`: comparing
`None` with a number raises `TypeError`. -/
def pyLe (o : Option ℚ) (x : ℚ) : Except PyErr Bool :=
  match o with
  | none => Except.error PyErr.typeError
  | some v => Except.ok (decide (v ≤ x))

/-- Python 3 semantics of `o < x` for an optional float `o`. -/
def pyLt (o : Option ℚ) (x : ℚ) : Except PyErr Bool :=
  match o with
  | none => Except.error PyErr.typeError
  | some v => Except.ok (decide (v < x))

/-- Python 3 semantics of `o > x` for an optional float `o`. -/
def pyGt (o : Option ℚ) (x : ℚ) : Except PyErr Bool :=
  match o with
  | none => Except.error PyErr.typeError
  | some v => Except.ok (decide (x < v))

/-- The short-circuit test
`overline_a <= 0 or overline_a > 1 or overline_b <= 0 or overline_b > 1`
from `contribution`, with Python 3 `TypeError` on a `None` operand. -/
def checkAdjust (oa ob : Option ℚ) : Except PyErr Bool :=
  match pyLe oa 0 with
  | Except.error e => Except.error e
  | Except.ok true => Except.ok true
  | Except.ok false =>
    match pyGt oa 1 with
    | Except.error e => Except.error e
    | Except.ok true => Except.ok true
    | Except.ok false =>
      match pyLe ob 0 with
      | Except.error e => Except.error e
      | Except.ok true => Except.ok true
      | Except.ok false => pyGt ob 1

/-- The short-circuit test `mean_distance < 0 or mean_distance > 1` from
`contribution`, with Python 3 `TypeError` on a `None` operand. -/
def checkMean (m : Option ℚ) : Except PyErr Bool :=
  match pyLt m 0 with
  | Except.error e => Except.error e
  | Except.ok true => Except.ok true
  | Except.ok false => pyGt m 1

/-- The adjustment-parameter phase of `contribution`: if either group is a
singleton both parameters are set to the integer `1`; otherwise the two
intra-group mean distances are computed in order, threading the cache.
Returns `(overline_a, overline_b, cache)`. -/
def adjustParams (engine : Engine) (c : Cache) (docs : Docs)
    (as bs : List Idx) : Option ℚ × Option ℚ × Cache :=
  if as.length = 1 ∨ bs.length = 1 then (some 1, some 1, c)
  else
    ((meanDistance engine c docs as as).1,
      (meanDistance engine (meanDistance engine c docs as as).2 docs bs bs).1,
      (meanDistance engine (meanDistance engine c docs as as).2 docs bs bs).2)

/-- The tail of `contribution` after the adjustment parameters validated:
compute the inter-group mean, test `mean_distance < 0 or mean_distance > 1`,
and finally return `(overline_b / overline_a) * mean_distance`.  The last
match arm models Python arithmetic on `None` (unreachable because the checks
error out on `None` first). -/
def afterMeanCheck (oa ob m : Option ℚ) : Except PyErr (Option ℚ) :=
  match checkMean m with
  | Except.error e => Except.error e
  | Except.ok true => Except.ok none
  | Except.ok false =>
    match oa, ob, m with
    | some a, some b, some mm => Except.ok (some (b / a * mm))
    | _, _, _ => Except.error PyErr.typeError

/-- The part of `contribution` from the adjustment-parameter validation on,
given the already-computed parameters and the cache they produced. -/
def afterAdjust (engine : Engine) (c1 : Cache) (docs : Docs)
    (as bs : List Idx) (oa ob : Option ℚ) : Except PyErr (Option ℚ) × Cache :=
  match checkAdjust oa ob with
  | Except.error e => (Except.error e, c1)
  | Except.ok true => (Except.ok none, c1)
  | Except.ok false =>
    (afterMeanCheck oa ob (meanDistance engine c1 docs as bs).1,
      (meanDistance engine c1 docs as bs).2)

/-- `ContribCalculator.contribution`.  The result is the returned value (or
the raised `TypeError`) paired with the final cache state — the cache is an
object attribute and keeps its mutations even when the call raises. -/
def contribution (engine : Engine) (c : Cache) (docs : Docs)
    (as bs : List Idx) : Except PyErr (Option ℚ) × Cache :=
  if as.length = 0 ∨ bs.length = 0 then (Except.ok none, c)
  else
    afterAdjust engine (adjustParams engine c docs as bs).2.2 docs as bs
      (adjustParams engine c docs as bs).1 (adjustParams engine c docs as bs).2.1

/-- Document frequency of a term over the two-document corpus `[d1, d2]`
used by the call-scoped `vectorizer.fit_transform([d1, d2])`. -/
def docFreq (tokens : String → List String) (d1 d2 : String) (t : String) : ℕ :=
  (if t ∈ tokens d1 then 1 else 0) + (if t ∈ tokens d2 then 1 else 0)

/-- TF-IDF weight of term `t` in document `d` of the corpus `[d1, d2]`:
raw term count times an IDF weight depending only on the document frequency.
`tokens` abstracts `normalize` (lowercasing, punctuation stripping,
tokenization, stemming) together with stop-word removal; `idf` abstracts the
IDF curve of the vectorizer. -/
noncomputable def tfidfWeight (tokens : String → List String) (idf : ℕ → ℝ)
    (d1 d2 d : String) (t : String) : ℝ :=
  ((tokens d).count t : ℝ) * idf (docFreq tokens d1 d2 t)

/-- The scikit-learn similarity `(tfidf * tfidf.T).A[0][1]` for the corpus
`[d1, d2]`: cosine similarity of the two TF-IDF vectors over the joint
vocabulary (a set of distinct terms), with `none` modelling the
`ValueError` raised when the vocabulary is empty.  Real division by zero in
Lean yields `0`, matching the all-zero-row behaviour of the normalizer. -/
noncomputable def tfidfCosineSim (tokens : String → List String) (idf : ℕ → ℝ)
    (d1 d2 : String) : Option ℝ :=
  if ((tokens d1).toFinset ∪ (tokens d2).toFinset) = ∅ then none
  else some
    (Finset.sum ((tokens d1).toFinset ∪ (tokens d2).toFinset)
        (fun t => tfidfWeight tokens idf d1 d2 d1 t *
          tfidfWeight tokens idf d1 d2 d2 t) /
      (Real.sqrt (Finset.sum ((tokens d1).toFinset ∪ (tokens d2).toFinset)
          (fun t => (tfidfWeight tokens idf d1 d2 d1 t) ^ 2)) *
        Real.sqrt (Finset.sum ((tokens d1).toFinset ∪ (tokens d2).toFinset)
          (fun t => (tfidfWeight tokens idf d1 d2 d2 t) ^ 2))))

/-- The cache is symmetric: an entry for `(a, b)` exists iff an entry for
`(b, a)` exists, with the identical value. -/
def cacheSymm (c : Cache) : Prop := ∀ a b, c a b = c b a

/-- The cache never contains a self-pair `(a, a)`. -/
def cacheNoSelf (c : Cache) : Prop := ∀ a, c a a = none

/-- The cache invariant of the specification's data model. -/
def cacheInv (c : Cache) : Prop := cacheSymm c ∧ cacheNoSelf c

/-- Every entry present in the cache is a distance in `[0, 1]`. -/
def cacheInRange (c : Cache) : Prop :=
  ∀ a b v, c a b = some v → 0 ≤ v ∧ v ≤ 1

/-- A concrete engine-level similarity that always fails; used to evaluate
the calculator on inputs whose texts are empty (where the similarity is
never consulted). -/
def simNone : Engine := fun _ _ => none

/-- A concrete constant engine-level similarity. -/
def simHalf : Engine := fun _ _ => some (1 / 2)

/-- A concrete empty document map. -/
def docsEmpty : Docs := fun _ => none

/-- A concrete cache holding distance `1/2` for the pair `("1", "2")`. -/
def cacheSeed : Cache := addDistance "1" "2" (1 / 2) emptyCache

/-- A concrete cache holding distance `0` for `("1", "3")` and `1` for
`("2", "3")`. -/
def cacheTwo : Cache := addDistance "2" "3" 1 (addDistance "1" "3" 0 emptyCache)


/-- Folding a step that preserves a state predicate preserves it over any
list. -/
theorem foldl_preserves {α β : Type} (P : β → Prop) (f : β → α → β)
    (hf : ∀ st p, P st → P (f st p)) :
    ∀ (l : List α) (st : β), P st → P (l.foldl f st) := by
  intro l
  induction l with
  | nil => intro st h; exact h
  | cons x xs ih => intro st h; exact ih (f st x) (hf st x h)

/-- The defensive guard of `document_distance`: any produced distance lies in
the closed unit interval, regardless of what the similarity library
returned. -/
theorem documentDistance_some_range (sim : Engine) (d1 d2 : String) (v : ℚ)
    (h : documentDistance sim d1 d2 = some v) : 0 ≤ v ∧ v ≤ 1 := by
  unfold documentDistance at h
  by_cases he : d1 = "" ∨ d2 = ""
  · simp [he] at h
  · simp only [if_neg he] at h
    rcases hs : sim d1 d2 with _ | s
    · rw [hs] at h; simp at h
    · rw [hs] at h
      simp at h
      obtain ⟨⟨h1, h2⟩, hv⟩ := h
      constructor
      · rw [← hv]; linarith
      · rw [← hv]; linarith

/-- A self-pair is skipped by the loop body. -/
theorem processPair_self (engine : Engine) (docs : Docs)
    (st : List ℚ × Cache) (p : Idx × Idx) (h : p.1 = p.2) :
    processPair engine docs st p = st := by
  unfold processPair
  rw [if_pos h]

/-- A cached pair is reused: the cached value is appended and neither the
cache, the engine, nor the document map is consulted for anything else. -/
theorem processPair_hit (engine : Engine) (docs : Docs)
    (st : List ℚ × Cache) (a b : Idx) (v : ℚ) (hab : a ≠ b)
    (hv : st.2 a b = some v) :
    processPair engine docs st (a, b) = (st.1 ++ [v], st.2) := by
  unfold processPair
  rw [if_neg hab]
  simp only [hv]

/-- On a cache miss where the engine fails, the state is unchanged. -/
theorem processPair_miss_none (engine : Engine) (docs : Docs)
    (st : List ℚ × Cache) (a b : Idx) (hab : a ≠ b)
    (hv : st.2 a b = none)
    (he : engine (getDocumentText docs a) (getDocumentText docs b) = none) :
    processPair engine docs st (a, b) = st := by
  unfold processPair
  rw [if_neg hab]
  simp only [hv, he]

/-- On a cache miss where the engine produces a distance, the distance is
appended and stored under both orderings. -/
theorem processPair_miss_some (engine : Engine) (docs : Docs)
    (st : List ℚ × Cache) (a b : Idx) (v : ℚ) (hab : a ≠ b)
    (hv : st.2 a b = none)
    (he : engine (getDocumentText docs a) (getDocumentText docs b) = some v) :
    processPair engine docs st (a, b) = (st.1 ++ [v], addDistance a b v st.2) := by
  unfold processPair
  rw [if_neg hab]
  simp only [hv, he]

/-- Lookup after `_add_distance`. -/
theorem addDistance_lookup (idx1 idx2 : Idx) (d : ℚ) (c : Cache) (a b : Idx) :
    addDistance idx1 idx2 d c a b =
      if (a = idx1 ∧ b = idx2) ∨ (a = idx2 ∧ b = idx1) then some d
      else c a b := rfl

/-- The empty cache satisfies the structural invariant. -/
theorem cacheInv_empty : cacheInv emptyCache :=
  ⟨fun _ _ => rfl, fun _ => rfl⟩

/-- `_add_distance` preserves the structural cache invariant whenever its two
indices are distinct. -/
theorem addDistance_cacheInv (idx1 idx2 : Idx) (d : ℚ) (c : Cache)
    (hne : idx1 ≠ idx2) (hc : cacheInv c) : cacheInv (addDistance idx1 idx2 d c) := by
  obtain ⟨hs, hn⟩ := hc
  constructor
  · intro a b
    rw [addDistance_lookup, addDistance_lookup]
    by_cases h : (a = idx1 ∧ b = idx2) ∨ (a = idx2 ∧ b = idx1)
    · have h' : (b = idx1 ∧ a = idx2) ∨ (b = idx2 ∧ a = idx1) := by tauto
      rw [if_pos h, if_pos h']
    · have h' : ¬((b = idx1 ∧ a = idx2) ∨ (b = idx2 ∧ a = idx1)) := by tauto
      rw [if_neg h, if_neg h', hs]
  · intro a
    rw [addDistance_lookup]
    have h : ¬((a = idx1 ∧ a = idx2) ∨ (a = idx2 ∧ a = idx1)) := by
      rintro (⟨h1, h2⟩ | ⟨h1, h2⟩)
      · exact hne (h1 ▸ h2 ▸ rfl)
      · exact hne (h2 ▸ h1 ▸ rfl)
    rw [if_neg h]
    exact hn a

/-- The loop body preserves the structural cache invariant. -/
theorem processPair_cacheInv (engine : Engine) (docs : Docs)
    (st : List ℚ × Cache) (p : Idx × Idx) (h : cacheInv st.2) :
    cacheInv (processPair engine docs st p).2 := by
  unfold processPair
  by_cases hself : p.1 = p.2
  · rw [if_pos hself]; exact h
  · rw [if_neg hself]
    rcases hv : st.2 p.1 p.2 with _ | d
    · rcases he : engine (getDocumentText docs p.1) (getDocumentText docs p.2) with _ | w
      · simpa using h
      · simpa using addDistance_cacheInv p.1 p.2 w st.2 hself h
    · simpa using h

/-- `_pairwise_distances` preserves the structural cache invariant. -/
theorem pairwiseDistances_cacheInv (engine : Engine) (c : Cache) (docs : Docs)
    (as bs : List Idx) (h : cacheInv c) :
    cacheInv (pairwiseDistances engine c docs as bs).2 := by
  unfold pairwiseDistances
  exact foldl_preserves (fun st => cacheInv st.2) (processPair engine docs)
    (processPair_cacheInv engine docs) (pairList as bs) ([], c) h

/-- `_mean_distance` preserves the structural cache invariant. -/
theorem meanDistance_cacheInv (engine : Engine) (c : Cache) (docs : Docs)
    (as bs : List Idx) (h : cacheInv c) :
    cacheInv (meanDistance engine c docs as bs).2 := by
  unfold meanDistance
  by_cases hl : (pairwiseDistances engine c docs as bs).1.length = 0
  · rw [if_pos hl]; exact pairwiseDistances_cacheInv engine c docs as bs h
  · rw [if_neg hl]; exact pairwiseDistances_cacheInv engine c docs as bs h

/-- The adjustment-parameter phase preserves the structural cache
invariant. -/
theorem adjustParams_cacheInv (engine : Engine) (c : Cache) (docs : Docs)
    (as bs : List Idx) (h : cacheInv c) :
    cacheInv (adjustParams engine c docs as bs).2.2 := by
  unfold adjustParams
  by_cases hs : as.length = 1 ∨ bs.length = 1
  · rw [if_pos hs]; exact h
  · rw [if_neg hs]
    exact meanDistance_cacheInv engine _ docs bs bs
      (meanDistance_cacheInv engine c docs as as h)

/-- `contribution` preserves the structural cache invariant, whether it
returns a value, returns the undefined sentinel, or raises. -/
theorem contribution_cacheInv (engine : Engine) (c : Cache) (docs : Docs)
    (as bs : List Idx) (h : cacheInv c) :
    cacheInv (contribution engine c docs as bs).2 := by
  unfold contribution
  by_cases he : as.length = 0 ∨ bs.length = 0
  · rw [if_pos he]; exact h
  · rw [if_neg he]
    unfold afterAdjust
    have h1 : cacheInv (adjustParams engine c docs as bs).2.2 :=
      adjustParams_cacheInv engine c docs as bs h
    have h2 : cacheInv (meanDistance engine (adjustParams engine c docs as bs).2.2
        docs as bs).2 := meanDistance_cacheInv engine _ docs as bs h1
    rcases checkAdjust (adjustParams engine c docs as bs).1
        (adjustParams engine c docs as bs).2.1 with e | b
    · exact h1
    · rcases b with _ | _
      · exact h2
      · exact h1

/-- `_add_distance` with an in-range value preserves in-range caches. -/
theorem addDistance_cacheInRange (idx1 idx2 : Idx) (d : ℚ) (c : Cache)
    (hd : 0 ≤ d ∧ d ≤ 1) (hc : cacheInRange c) :
    cacheInRange (addDistance idx1 idx2 d c) := by
  intro a b v hv
  rw [addDistance_lookup] at hv
  by_cases h : (a = idx1 ∧ b = idx2) ∨ (a = idx2 ∧ b = idx1)
  · rw [if_pos h] at hv
    cases hv
    exact hd
  · rw [if_neg h] at hv
    exact hc a b v hv

/-- When the engine is the distance calculator, the loop body preserves the
state predicate "all collected distances and all cache entries lie in
`[0, 1]`". -/
theorem processPair_range (sim : Engine) (docs : Docs)
    (st : List ℚ × Cache) (p : Idx × Idx)
    (h : (∀ d ∈ st.1, 0 ≤ d ∧ d ≤ 1) ∧ cacheInRange st.2) :
    (∀ d ∈ (processPair (documentDistance sim) docs st p).1, 0 ≤ d ∧ d ≤ 1) ∧
      cacheInRange (processPair (documentDistance sim) docs st p).2 := by
  obtain ⟨hl, hc⟩ := h
  unfold processPair
  by_cases hself : p.1 = p.2
  · rw [if_pos hself]; exact ⟨hl, hc⟩
  · rw [if_neg hself]
    rcases hv : st.2 p.1 p.2 with _ | d
    · rcases he : documentDistance sim (getDocumentText docs p.1)
          (getDocumentText docs p.2) with _ | w
      · exact ⟨hl, hc⟩
      · have hw : 0 ≤ w ∧ w ≤ 1 := documentDistance_some_range sim _ _ w he
        refine ⟨?_, addDistance_cacheInRange p.1 p.2 w st.2 hw hc⟩
        intro d hd
        rcases List.mem_append.1 hd with hd | hd
        · exact hl d hd
        · rw [List.mem_singleton.1 hd]; exact hw
    · have hd : 0 ≤ d ∧ d ≤ 1 := hc p.1 p.2 d hv
      refine ⟨?_, hc⟩
      intro x hx
      rcases List.mem_append.1 hx with hx | hx
      · exact hl x hx
      · rw [List.mem_singleton.1 hx]; exact hd

/-- With the distance calculator as engine, `_pairwise_distances` returns
only distances in `[0, 1]` and keeps every cache entry in `[0, 1]`. -/
theorem pairwiseDistances_range (sim : Engine) (c : Cache) (docs : Docs)
    (as bs : List Idx) (hc : cacheInRange c) :
    (∀ d ∈ (pairwiseDistances (documentDistance sim) c docs as bs).1,
        0 ≤ d ∧ d ≤ 1) ∧
      cacheInRange (pairwiseDistances (documentDistance sim) c docs as bs).2 := by
  unfold pairwiseDistances
  exact foldl_preserves
    (fun st => (∀ d ∈ st.1, 0 ≤ d ∧ d ≤ 1) ∧ cacheInRange st.2)
    (processPair (documentDistance sim) docs)
    (processPair_range sim docs) (pairList as bs) ([], c)
    ⟨fun d hd => absurd hd (List.not_mem_nil d), hc⟩

/-- The sum of a list of values each at most `1` is at most the length. -/
theorem list_sum_le_length (l : List ℚ) (h : ∀ d ∈ l, d ≤ 1) :
    l.sum ≤ (l.length : ℚ) := by
  induction l with
  | nil => simp
  | cons x xs ih =>
    simp only [List.sum_cons, List.length_cons]
    push_cast
    have hx : x ≤ 1 := h x (List.mem_cons_self x xs)
    have hxs : xs.sum ≤ (xs.length : ℚ) :=
      ih (fun d hd => h d (List.mem_cons_of_mem x hd))
    linarith

/-- The sum of a list of nonnegative values is nonnegative. -/
theorem list_sum_nonneg (l : List ℚ) (h : ∀ d ∈ l, 0 ≤ d) : 0 ≤ l.sum := by
  induction l with
  | nil => simp
  | cons x xs ih =>
    simp only [List.sum_cons]
    have hx : 0 ≤ x := h x (List.mem_cons_self x xs)
    have hxs : 0 ≤ xs.sum :=
      ih (fun d hd => h d (List.mem_cons_of_mem x hd))
    linarith

/-- The arithmetic mean of a nonempty list of values in `[0, 1]` lies in
`[0, 1]`. -/
theorem list_mean_mem_unit (l : List ℚ) (hne : l.length ≠ 0)
    (h : ∀ d ∈ l, 0 ≤ d ∧ d ≤ 1) :
    0 ≤ l.sum / (l.length : ℚ) ∧ l.sum / (l.length : ℚ) ≤ 1 := by
  have hpos : (0 : ℚ) < (l.length : ℚ) := by
    have : 0 < l.length := Nat.pos_of_ne_zero hne
    exact_mod_cast this
  constructor
  · exact div_nonneg (list_sum_nonneg l (fun d hd => (h d hd).1)) (le_of_lt hpos)
  · rw [div_le_one hpos]
    exact list_sum_le_length l (fun d hd => (h d hd).2)

/-- With the distance calculator as engine and an in-range cache, a produced
mean distance lies in `[0, 1]`. -/
theorem meanDistance_some_range (sim : Engine) (c : Cache) (docs : Docs)
    (as bs : List Idx) (v : ℚ) (hc : cacheInRange c)
    (h : (meanDistance (documentDistance sim) c docs as bs).1 = some v) :
    0 ≤ v ∧ v ≤ 1 := by
  unfold meanDistance at h
  by_cases hl : (pairwiseDistances (documentDistance sim) c docs as bs).1.length = 0
  · rw [if_pos hl] at h; simp at h
  · rw [if_neg hl] at h
    simp only [Option.some.injEq] at h
    rw [← h]
    exact list_mean_mem_unit _ hl (pairwiseDistances_range sim c docs as bs hc).1

/-- Evaluation of the adjustment check on two in-range values: no error, no
rejection. -/
theorem checkAdjust_ok_false (a b : ℚ) (ha0 : 0 < a) (ha1 : a ≤ 1)
    (hb0 : 0 < b) (hb1 : b ≤ 1) :
    checkAdjust (some a) (some b) = Except.ok false := by
  have h1 : decide (a ≤ 0) = false := decide_eq_false (not_le.2 ha0)
  have h2 : decide (1 < a) = false := decide_eq_false (not_lt.2 ha1)
  have h3 : decide (b ≤ 0) = false := decide_eq_false (not_le.2 hb0)
  have h4 : decide (1 < b) = false := decide_eq_false (not_lt.2 hb1)
  simp [checkAdjust, pyLe, pyGt, h1, h2, h3, h4]

/-- The adjustment check raises `TypeError` when `overline_a` is `None`. -/
theorem checkAdjust_none_left (ob : Option ℚ) :
    checkAdjust none ob = Except.error PyErr.typeError := rfl

/-- Evaluation of the mean-distance check on an in-range value. -/
theorem checkMean_ok_false (v : ℚ) (h0 : 0 ≤ v) (h1 : v ≤ 1) :
    checkMean (some v) = Except.ok false := by
  have hd1 : decide (v < 0) = false := decide_eq_false (not_lt.2 h0)
  have hd2 : decide (1 < v) = false := decide_eq_false (not_lt.2 h1)
  simp [checkMean, pyLt, pyGt, hd1, hd2]

/-- The mean-distance check raises `TypeError` when the mean is `None`. -/
theorem checkMean_none : checkMean none = Except.error PyErr.typeError := rfl

/-- Document frequency does not depend on the order of the two corpus
documents. -/
theorem docFreq_comm (tokens : String → List String) (d1 d2 t : String) :
    docFreq tokens d1 d2 t = docFreq tokens d2 d1 t := by
  unfold docFreq
  exact add_comm _ _

/-- TF-IDF weights do not depend on the order of the two corpus documents. -/
theorem tfidfWeight_comm (tokens : String → List String) (idf : ℕ → ℝ)
    (d1 d2 d t : String) :
    tfidfWeight tokens idf d1 d2 d t = tfidfWeight tokens idf d2 d1 d t := by
  unfold tfidfWeight
  rw [docFreq_comm]

/-- The call-scoped TF-IDF cosine similarity is symmetric in the two texts,
including agreement on the empty-vocabulary failure. -/
theorem tfidfCosineSim_comm (tokens : String → List String) (idf : ℕ → ℝ)
    (d1 d2 : String) :
    tfidfCosineSim tokens idf d1 d2 = tfidfCosineSim tokens idf d2 d1 := by
  unfold tfidfCosineSim
  rw [Finset.union_comm ((tokens d2).toFinset) ((tokens d1).toFinset)]
  simp only [tfidfWeight_comm tokens idf d2 d1]
  have hdot : Finset.sum ((tokens d1).toFinset ∪ (tokens d2).toFinset)
        (fun t => tfidfWeight tokens idf d1 d2 d2 t *
          tfidfWeight tokens idf d1 d2 d1 t) =
      Finset.sum ((tokens d1).toFinset ∪ (tokens d2).toFinset)
        (fun t => tfidfWeight tokens idf d1 d2 d1 t *
          tfidfWeight tokens idf d1 d2 d2 t) :=
    Finset.sum_congr rfl (fun t _ => mul_comm _ _)
  rw [hdot, mul_comm (Real.sqrt (Finset.sum _
    (fun t => (tfidfWeight tokens idf d1 d2 d2 t) ^ 2))) _]

/-- `document_distance` is symmetric whenever the underlying similarity
is. -/
theorem documentDistance_symm_of {α : Type} [LinearOrderedField α]
    (sim : String → String → Option α)
    (hsym : ∀ a b, sim a b = sim b a) (d1 d2 : String) :
    documentDistance sim d1 d2 = documentDistance sim d2 d1 := by
  unfold documentDistance
  rw [hsym d1 d2]
  by_cases h1 : d1 = "" <;> by_cases h2 : d2 = "" <;> simp [h1, h2]

/-- The loop body never creates an entry for a pair on which the engine
fails in both orders. -/
theorem processPair_preserves_absent (engine : Engine) (docs : Docs)
    (a b : Idx)
    (h1 : engine (getDocumentText docs a) (getDocumentText docs b) = none)
    (h2 : engine (getDocumentText docs b) (getDocumentText docs a) = none)
    (st : List ℚ × Cache) (p : Idx × Idx) (h : st.2 a b = none) :
    (processPair engine docs st p).2 a b = none := by
  unfold processPair
  by_cases hself : p.1 = p.2
  · rw [if_pos hself]; exact h
  · rw [if_neg hself]
    rcases hv : st.2 p.1 p.2 with _ | d
    · rcases he : engine (getDocumentText docs p.1) (getDocumentText docs p.2) with _ | w
      · exact h
      · simp only [addDistance_lookup]
        have hcond : ¬((a = p.1 ∧ b = p.2) ∨ (a = p.2 ∧ b = p.1)) := by
          rintro (⟨hx, hy⟩ | ⟨hx, hy⟩)
          · rw [← hx, ← hy] at he
            rw [h1] at he
            exact Option.noConfusion he
          · rw [← hy, ← hx] at he
            rw [h2] at he
            exact Option.noConfusion he
        rw [if_neg hcond]
        exact h
    · exact h

/-- A pair on which the engine fails in both orders is never added to the
cache by `_pairwise_distances`: it stays absent and is re-attempted on any
later call. -/
theorem pairwiseDistances_preserves_absent (engine : Engine) (c : Cache)
    (docs : Docs) (as bs : List Idx) (a b : Idx) (hc : c a b = none)
    (h1 : engine (getDocumentText docs a) (getDocumentText docs b) = none)
    (h2 : engine (getDocumentText docs b) (getDocumentText docs a) = none) :
    (pairwiseDistances engine c docs as bs).2 a b = none := by
  unfold pairwiseDistances
  exact foldl_preserves (fun st => st.2 a b = none) (processPair engine docs)
    (processPair_preserves_absent engine docs a b h1 h2)
    (pairList as bs) ([], c) hc

/-- The pair enumeration of two constant groups is the constant pair
repeated `k * m` times. -/
theorem pairList_replicate (x y : Idx) (k m : ℕ) :
    pairList (List.replicate k x) (List.replicate m y) =
      List.replicate (k * m) (x, y) := by
  induction k with
  | zero => simp [pairList]
  | succ n ih =>
    rw [List.replicate_succ, Nat.succ_mul]
    unfold pairList
    rw [ih, List.map_replicate, Nat.add_comm, List.replicate_add]

/-- Folding the loop body over `n` copies of a cached pair appends the
cached value `n` times and leaves the cache unchanged. -/
theorem foldl_hit_replicate (engine : Engine) (docs : Docs) (x y : Idx)
    (v : ℚ) (c : Cache) (hxy : x ≠ y) (hv : c x y = some v) :
    ∀ (n : ℕ) (acc : List ℚ),
      (List.replicate n (x, y)).foldl (processPair engine docs) (acc, c) =
        (acc ++ List.replicate n v, c) := by
  intro n
  induction n with
  | zero => intro acc; simp
  | succ m ih =>
    intro acc
    rw [List.replicate_succ, List.foldl_cons,
      processPair_hit engine docs (acc, c) x y v hxy hv, ih,
      List.replicate_succ]
    simp

/-- With two singleton groups the adjustment phase returns `(1, 1)` and
leaves the cache untouched. -/
theorem adjustParams_singleton (engine : Engine) (c : Cache) (docs : Docs)
    (x y : Idx) : adjustParams engine c docs [x] [y] = (some 1, some 1, c) := by
  unfold adjustParams
  rw [if_pos]
  simp

/-- On two singleton groups, `contribution` reduces to the mean-distance
check applied to the inter-group mean, with both adjustment parameters
equal to `1`. -/
theorem contribution_singleton_eval (engine : Engine) (c : Cache) (docs : Docs)
    (x y : Idx) :
    contribution engine c docs [x] [y] =
      (afterMeanCheck (some 1) (some 1) (meanDistance engine c docs [x] [y]).1,
        (meanDistance engine c docs [x] [y]).2) := by
  unfold contribution
  rw [if_neg (by simp)]
  rw [adjustParams_singleton]
  unfold afterAdjust
  rw [checkAdjust_ok_false 1 1 one_pos le_rfl one_pos le_rfl]

/-- Claim C4: whenever `document_distance` produces a distance (does not
return the unavailable sentinel), that distance lies in the closed interval
`[0, 1]` — for every possible behaviour of the underlying similarity
library. -/
theorem documentDistance_unit_range (sim : Engine) (d1 d2 : String) (v : ℚ)
    (h : documentDistance sim d1 d2 = some v) : 0 ≤ v ∧ v ≤ 1 :=
  documentDistance_some_range sim d1 d2 v h

/-- Witness for C4 at a concrete similarity and concrete texts. -/
theorem documentDistance_unit_range_witness :
    documentDistance simHalf "x" "y" = some (1 / 2) ∧
      (0 ≤ (1 / 2 : ℚ) ∧ (1 / 2 : ℚ) ≤ 1) := by
  have he : documentDistance simHalf "x" "y" = some (1 / 2) := by
    simp [documentDistance, simHalf]
    norm_num
  exact ⟨he, documentDistance_unit_range simHalf "x" "y" (1 / 2) he⟩

/-- Claim C5: `document_distance` is symmetric in its two text arguments,
including agreement on unavailability, for the call-scoped TF-IDF cosine
similarity (with the tokenization/stemming pipeline and the IDF curve
abstracted as arbitrary functions). -/
theorem documentDistance_tfidf_symm (tokens : String → List String)
    (idf : ℕ → ℝ) (d1 d2 : String) :
    documentDistance (tfidfCosineSim tokens idf) d1 d2 =
      documentDistance (tfidfCosineSim tokens idf) d2 d1 :=
  documentDistance_symm_of (tfidfCosineSim tokens idf)
    (fun a b => tfidfCosineSim_comm tokens idf a b) d1 d2

/-- Claim C6: for every index, cache, engine and docs map,
`pairwise_distances([x], [x], docs)` is empty (the only candidate pair is a
self-pair, which is skipped) and `mean_distance([x], [x], docs)` is
unavailable. -/
theorem pairwise_self_pair_excluded (engine : Engine) (c : Cache)
    (docs : Docs) (x : Idx) :
    pairwiseDistances engine c docs [x] [x] = ([], c) ∧
      (meanDistance engine c docs [x] [x]).1 = none := by
  have hp : pairwiseDistances engine c docs [x] [x] = ([], c) := by
    show (pairList [x] [x]).foldl (processPair engine docs) ([], c) = ([], c)
    have hl : pairList [x] [x] = [(x, x)] := by simp [pairList]
    rw [hl, List.foldl_cons, processPair_self engine docs ([], c) (x, x) rfl,
      List.foldl_nil]
  refine ⟨hp, ?_⟩
  unfold meanDistance
  rw [hp]
  simp

/-- Claim C7: a pair already present in the cache is served from the cache:
the loop body appends the cached value for any engine and any docs map
(so neither the engine nor the texts are consulted) and leaves the cache
unchanged; consequently `pairwise_distances` on that pair returns exactly
the cached value with an unchanged cache, for any engine and docs. -/
theorem pairwise_cache_hit :
    (∀ (engine : Engine) (docs : Docs) (st : List ℚ × Cache) (a b : Idx)
        (v : ℚ), a ≠ b → st.2 a b = some v →
        processPair engine docs st (a, b) = (st.1 ++ [v], st.2)) ∧
      (∀ (engine : Engine) (c : Cache) (docs : Docs) (a b : Idx) (v : ℚ),
        a ≠ b → c a b = some v →
        pairwiseDistances engine c docs [a] [b] = ([v], c)) := by
  constructor
  · exact processPair_hit
  · intro engine c docs a b v hab hv
    show (pairList [a] [b]).foldl (processPair engine docs) ([], c) = ([v], c)
    have hl : pairList [a] [b] = [(a, b)] := by simp [pairList]
    rw [hl, List.foldl_cons, processPair_hit engine docs ([], c) a b v hab hv,
      List.foldl_nil]
    simp

/-- Witness for C7: two different engines and docs maps, same cached pair,
identical result and untouched cache. -/
theorem pairwise_cache_hit_witness :
    pairwiseDistances simNone cacheSeed docsEmpty ["1"] ["2"] =
        ([1 / 2], cacheSeed) ∧
      pairwiseDistances simHalf cacheSeed (fun _ => some "text") ["1"] ["2"] =
        ([1 / 2], cacheSeed) :=
  ⟨pairwise_cache_hit.2 simNone cacheSeed docsEmpty "1" "2" (1 / 2)
      (by decide) rfl,
    pairwise_cache_hit.2 simHalf cacheSeed (fun _ => some "text") "1" "2" (1 / 2)
      (by decide) rfl⟩

/-- Claim C10: occurrences are weighted by multiplicity: an index occurring
`k` times in one group and a distinct index occurring `m` times in the other
contribute `k * m` copies of their distance to the list returned by
`pairwise_distances`; concretely, duplicating an index shifts the arithmetic
mean (`[0, 1]` averages to `1/2`, but `[0, 0, 1]` averages to `1/3`). -/
theorem pairwise_multiplicity :
    (∀ (engine : Engine) (c : Cache) (docs : Docs) (x y : Idx) (v : ℚ)
        (k m : ℕ), x ≠ y → c x y = some v →
        pairwiseDistances engine c docs (List.replicate k x)
            (List.replicate m y) = (List.replicate (k * m) v, c)) ∧
      ((meanDistance simNone cacheTwo docsEmpty ["1", "2"] ["3"]).1 =
          some (1 / 2) ∧
        (meanDistance simNone cacheTwo docsEmpty ["1", "1", "2"] ["3"]).1 =
          some (1 / 3)) := by
  refine ⟨?_, ?_, ?_⟩
  · intro engine c docs x y v k m hxy hv
    show (pairList (List.replicate k x) (List.replicate m y)).foldl
        (processPair engine docs) ([], c) = (List.replicate (k * m) v, c)
    rw [pairList_replicate,
      foldl_hit_replicate engine docs x y v c hxy hv (k * m) []]
    simp
  · simp [meanDistance, pairwiseDistances, pairList, processPair, cacheTwo,
      addDistance, emptyCache, docsEmpty, getDocumentText, simNone]
  · simp [meanDistance, pairwiseDistances, pairList, processPair, cacheTwo,
      addDistance, emptyCache, docsEmpty, getDocumentText, simNone]

/-- Witness for C10: index `"1"` twice against `"3"` three times yields six
copies of the cached distance. -/
theorem pairwise_multiplicity_witness :
    pairwiseDistances simNone cacheTwo docsEmpty
        (List.replicate 2 "1") (List.replicate 3 "3") =
      (List.replicate 6 (0 : ℚ), cacheTwo) :=
  pairwise_multiplicity.1 simNone cacheTwo docsEmpty "1" "3" 0 2 3
    (by decide) rfl

/-- Claim C1 (divergence): with both groups singletons and no usable texts
the inter-group mean distance is unavailable, and `contribution` then raises
`TypeError` at the comparison `mean_distance < 0` instead of returning a
float or the undefined sentinel. -/
theorem contribution_typeerror_on_unavailable_mean :
    (meanDistance (documentDistance simNone) emptyCache docsEmpty
        ["1"] ["2"]).1 = none ∧
      (contribution (documentDistance simNone) emptyCache docsEmpty
        ["1"] ["2"]).1 = Except.error PyErr.typeError := by
  have hm : (meanDistance (documentDistance simNone) emptyCache docsEmpty
      ["1"] ["2"]).1 = none := by rfl
  refine ⟨hm, ?_⟩
  rw [contribution_singleton_eval, hm]
  rfl

/-- Claim C2 (divergence): with two groups of two documents and no usable
texts both intra-group mean distances are unavailable, and `contribution`
raises `TypeError` at the comparison `overline_a <= 0` instead of returning
the undefined sentinel. -/
theorem contribution_typeerror_on_unavailable_adjust :
    (adjustParams (documentDistance simNone) emptyCache docsEmpty
        ["1", "2"] ["3", "4"]).1 = none ∧
      (contribution (documentDistance simNone) emptyCache docsEmpty
        ["1", "2"] ["3", "4"]).1 = Except.error PyErr.typeError := by
  constructor
  · rfl
  · rfl

/-- Counterexample to C3 as stated: for singleton groups whose inter-group
mean distance is unavailable, `contribution` does not return that mean (the
undefined sentinel); it raises `TypeError`. -/
theorem contribution_singleton_counterexample :
    (meanDistance (documentDistance simNone) emptyCache docsEmpty
        ["1"] ["1"]).1 = none ∧
      (contribution (documentDistance simNone) emptyCache docsEmpty
          ["1"] ["1"]).1 ≠ Except.ok none := by
  constructor
  · rfl
  · rw [contribution_singleton_eval]
    intro h
    exact Except.noConfusion h

/-- Claim C3 as amended: for singleton groups, when the cache holds only
distances in `[0, 1]` and the inter-group mean is available, both adjustment
parameters are set to exactly `1` and `contribution` returns exactly the
inter-group mean. -/
theorem contribution_singleton_eq_mean (sim : Engine) (c : Cache)
    (docs : Docs) (x y : Idx) (v : ℚ) (hc : cacheInRange c)
    (hm : (meanDistance (documentDistance sim) c docs [x] [y]).1 = some v) :
    adjustParams (documentDistance sim) c docs [x] [y] = (some 1, some 1, c) ∧
      contribution (documentDistance sim) c docs [x] [y] =
        (Except.ok (some v),
          (meanDistance (documentDistance sim) c docs [x] [y]).2) := by
  refine ⟨adjustParams_singleton (documentDistance sim) c docs x y, ?_⟩
  rw [contribution_singleton_eval, hm]
  have hv := meanDistance_some_range sim c docs [x] [y] v hc hm
  unfold afterMeanCheck
  rw [checkMean_ok_false v hv.1 hv.2]
  have h11 : (1 : ℚ) / 1 * v = v := by norm_num
  simp [h11]

/-- Witness for C3: a cached pair of singletons, mean available and equal to
the cached distance, returned exactly. -/
theorem contribution_singleton_eq_mean_witness :
    contribution (documentDistance simNone) cacheSeed docsEmpty ["1"] ["2"] =
      (Except.ok (some (1 / 2)),
        (meanDistance (documentDistance simNone) cacheSeed docsEmpty
          ["1"] ["2"]).2) := by
  have hrange : cacheInRange cacheSeed := by
    intro a b v hv
    simp only [cacheSeed, addDistance_lookup, emptyCache] at hv
    by_cases h : (a = "1" ∧ b = "2") ∨ (a = "2" ∧ b = "1")
    · rw [if_pos h] at hv
      have hv' : (1 / 2 : ℚ) = v := Option.some.inj hv
      rw [← hv']
      norm_num
    · rw [if_neg h] at hv
      exact Option.noConfusion hv
  have hm : (meanDistance (documentDistance simNone) cacheSeed docsEmpty
      ["1"] ["2"]).1 = some (1 / 2) := by
    simp [meanDistance, pairwiseDistances, pairList, processPair, cacheSeed,
      addDistance, emptyCache]
  exact (contribution_singleton_eq_mean simNone cacheSeed docsEmpty "1" "2"
    (1 / 2) hrange hm).2

/-- Counterexample to C8 as stated: `_add_distance` called with two equal
indices creates a self-pair, so it does not preserve the cache invariant
unconditionally (the empty cache satisfies the invariant, the updated one
does not). -/
theorem addDistance_self_pair_counterexample :
    cacheInv emptyCache ∧
      ¬cacheInv (addDistance "1" "1" (1 / 2) emptyCache) := by
  refine ⟨cacheInv_empty, ?_⟩
  rintro ⟨hs, hn⟩
  have h := hn "1"
  rw [addDistance_lookup] at h
  simp at h

/-- Claim C8 as amended: `_add_distance` preserves the symmetric,
self-pair-free cache invariant whenever its two indices are distinct (as at
its only call site, which skips self-pairs first), and `pairwise_distances`,
`mean_distance` and `contribution` preserve it unconditionally — also when
`contribution` raises. -/
theorem cache_ops_preserve_inv :
    (∀ (idx1 idx2 : Idx) (d : ℚ) (c : Cache), idx1 ≠ idx2 → cacheInv c →
        cacheInv (addDistance idx1 idx2 d c)) ∧
      (∀ (engine : Engine) (c : Cache) (docs : Docs) (as bs : List Idx),
        cacheInv c → cacheInv (pairwiseDistances engine c docs as bs).2) ∧
      (∀ (engine : Engine) (c : Cache) (docs : Docs) (as bs : List Idx),
        cacheInv c → cacheInv (meanDistance engine c docs as bs).2) ∧
      (∀ (engine : Engine) (c : Cache) (docs : Docs) (as bs : List Idx),
        cacheInv c → cacheInv (contribution engine c docs as bs).2) :=
  ⟨addDistance_cacheInv, pairwiseDistances_cacheInv, meanDistance_cacheInv,
    contribution_cacheInv⟩

/-- Witness for C8 at concrete inputs. -/
theorem cache_ops_preserve_inv_witness :
    cacheInv (addDistance "1" "2" (1 / 2) emptyCache) ∧
      cacheInv (pairwiseDistances simNone emptyCache docsEmpty ["1"] ["2"]).2 ∧
      cacheInv (meanDistance simNone emptyCache docsEmpty ["1"] ["2"]).2 ∧
      cacheInv (contribution simNone emptyCache docsEmpty ["1"] ["2"]).2 :=
  ⟨cache_ops_preserve_inv.1 "1" "2" (1 / 2) emptyCache (by decide) cacheInv_empty,
    cache_ops_preserve_inv.2.1 simNone emptyCache docsEmpty ["1"] ["2"]
      cacheInv_empty,
    cache_ops_preserve_inv.2.2.1 simNone emptyCache docsEmpty ["1"] ["2"]
      cacheInv_empty,
    cache_ops_preserve_inv.2.2.2 simNone emptyCache docsEmpty ["1"] ["2"]
      cacheInv_empty⟩

/-- Claim C9: with the distance calculator as engine, the core never stores
an unavailable result: starting from a cache whose entries all lie in
`[0, 1]`, every entry after `pairwise_distances` still lies in `[0, 1]`
(new entries are successful engine outputs, which the guard keeps in
`[0, 1]`), and a pair on which the engine is unavailable in both orders is
left absent from the cache — re-attempted later, not negatively cached. -/
theorem cache_no_unavailable :
    (∀ (sim : Engine) (c : Cache) (docs : Docs) (as bs : List Idx),
        cacheInRange c →
        cacheInRange (pairwiseDistances (documentDistance sim) c docs as bs).2) ∧
      (∀ (sim : Engine) (c : Cache) (docs : Docs) (as bs : List Idx)
        (a b : Idx), c a b = none →
        documentDistance sim (getDocumentText docs a)
          (getDocumentText docs b) = none →
        documentDistance sim (getDocumentText docs b)
          (getDocumentText docs a) = none →
        (pairwiseDistances (documentDistance sim) c docs as bs).2 a b = none) := by
  constructor
  · intro sim c docs as bs hc
    exact (pairwiseDistances_range sim c docs as bs hc).2
  · intro sim c docs as bs a b hc h1 h2
    exact pairwiseDistances_preserves_absent (documentDistance sim) c docs
      as bs a b hc h1 h2

/-- Witness for C9 at concrete inputs (all texts empty, so the engine is
unavailable on every pair). -/
theorem cache_no_unavailable_witness :
    cacheInRange (pairwiseDistances (documentDistance simNone) emptyCache
        docsEmpty ["1"] ["2"]).2 ∧
      (pairwiseDistances (documentDistance simNone) emptyCache docsEmpty
        ["1"] ["2"]).2 "1" "2" = none :=
  ⟨cache_no_unavailable.1 simNone emptyCache docsEmpty ["1"] ["2"]
      (fun _ _ _ h => Option.noConfusion h),
    cache_no_unavailable.2 simNone emptyCache docsEmpty ["1"] ["2"] "1" "2"
      rfl rfl rfl⟩
